import Mathlib

/-!
Verification of the geomemo geospatial discovery and dual-mode persistence core.

The TypeScript sources are shallowly embedded: JavaScript doubles used for
coordinates, timestamps and amounts are modelled as rationals (`ℚ`) and
integers (`Int`); trigonometric floating-point code (the haversine distance)
is modelled over the reals; network interactions are modelled by passing their
outcome (`Except`) as an explicit argument; `Date.now()` is an explicit `now`
parameter.
-/

/-- The `ImageType` union from demoPostStore.ts and the Supabase service. -/
inductive ImageType where
  | good
  | bad
  | general
  deriving DecidableEq

/-- `DemoPost` from src/services/demoPostStore.ts: the record type of the
in-memory demo store. Coordinates are rationals, timestamps epoch ms. -/
structure DemoPost where
  id : String
  latitude : ℚ
  longitude : ℚ
  image_type : ImageType
  memo : String
  creator : String
  timestamp : Int
  expiry : Int
  tips : Int
  deriving DecidableEq

/-- `PostMetadata` from src/services/irysService.ts. -/
structure PostMetadata where
  id : String
  latitude : ℚ
  longitude : ℚ
  photoUrl : String
  memo : String
  creator : String
  timestamp : Int
  expiry : Int
  tips : Int
  geohash : String
  deriving DecidableEq

/-- The row inserted into the `posts` table by `SupabaseService.createPost`
(part_006 lines 46-60); the database-assigned `id` is not part of the insert. -/
structure SupabasePostRow where
  creator : String
  latitude : ℚ
  longitude : ℚ
  geohash : String
  memo : String
  image_type : ImageType
  timestamp : Int
  expiry : Int
  tips : Int
  deriving DecidableEq

/-- `demoPostStore.updatePostTips` (demoPostStore.ts lines 33-43): find the
first post whose `id` matches, replace it with a copy whose `tips` field is
increased by `amount`, and notify the listeners; when no post matches, the
list is left as is and no listener fires. The returned boolean records
whether the listeners were notified. This first-match recursion is the
`findIndex` + single-index replacement of the source. -/
def updatePostTips : List DemoPost → String → Int → List DemoPost × Bool
  | [], _, _ => ([], false)
  | p :: rest, postId, amount =>
    if p.id = postId then
      ({ p with tips := p.tips + amount } :: rest, true)
    else
      let r := updatePostTips rest postId amount
      (p :: r.1, r.2)

/-- The 32-symbol geohash alphabet (`chars` in every `encodeGeohash` copy). -/
def geohashChars : List Char := "0123456789bcdefghjkmnpqrstuvwxyz".toList

/-- The mutable bisection state of `encodeGeohash`: the current latitude and
longitude ranges and the `isEven` axis flag. -/
structure GeohashState where
  minLat : ℚ
  maxLat : ℚ
  minLon : ℚ
  maxLon : ℚ
  isEven : Bool
  deriving DecidableEq

/-- The initial state of `encodeGeohash`: full WGS84 ranges, longitude first. -/
def geohashInit : GeohashState :=
  { minLat := -90, maxLat := 90, minLon := -180, maxLon := 180, isEven := true }

/-- One iteration of the inner 5-step loop of `encodeGeohash`: bisect the
axis selected by `isEven` (even = longitude), emit bit 1 and keep the upper
half when the coordinate is `>=` the midpoint, else bit 0 and the lower half,
then flip the axis. `charIndex` accumulates as `charIndex * 2 + bit`. -/
def geohashBitStep (lat lon : ℚ) (st : GeohashState) (charIndex : Nat) :
    Nat × GeohashState :=
  if st.isEven then
    let mid := (st.minLon + st.maxLon) / 2
    if mid ≤ lon then (charIndex * 2 + 1, { st with minLon := mid, isEven := false })
    else (charIndex * 2, { st with maxLon := mid, isEven := false })
  else
    let mid := (st.minLat + st.maxLat) / 2
    if mid ≤ lat then (charIndex * 2 + 1, { st with minLat := mid, isEven := true })
    else (charIndex * 2, { st with maxLat := mid, isEven := true })

/-- `n` consecutive iterations of the inner loop of `encodeGeohash`
(the source runs it with `n = 5` per output character). -/
def geohashBits (lat lon : ℚ) : Nat → GeohashState → Nat → Nat × GeohashState
  | 0, st, charIndex => (charIndex, st)
  | n + 1, st, charIndex =>
    let r := geohashBitStep lat lon st charIndex
    geohashBits lat lon n r.2 r.1

/-- The outer `while (geohash.length < precision)` loop of `encodeGeohash`:
each round runs five bit steps starting from `charIndex = 0` and appends
`chars[charIndex]`. -/
def encodeGeohashAux (lat lon : ℚ) : Nat → GeohashState → List Char
  | 0, _ => []
  | p + 1, st =>
    let r := geohashBits lat lon 5 st 0
    geohashChars.getD r.1 'x' :: encodeGeohashAux lat lon p r.2

/-- `encodeGeohash(lat, lon, precision)` as implemented identically in
irysService.ts (lines 339-375), part_006 (lines 161-199) and MapScreen.tsx
(lines 99-133). The source performs no range validation on `lat`/`lon`. -/
def encodeGeohash (lat lon : ℚ) (precision : Nat) : String :=
  String.mk (encodeGeohashAux lat lon precision geohashInit)

/-- Observable outcome of `SupabaseService.recordTip` (part_006 lines 113-138):
which of the two remote writes landed and what, if anything, was thrown to
the caller. -/
structure RecordTipOutcome where
  tipWritten : Bool
  counterWritten : Bool
  thrown : Option String
  deriving DecidableEq

/-- `SupabaseService.recordTip` (part_006 lines 113-138) as a function of the
outcomes of its two remote writes. If the `tips` insert fails, the error is
rethrown and the counter update is never attempted. If the insert succeeds,
the `posts` counter update is attempted; on its failure the source only does
`console.error` and falls through, so the promise still resolves (nothing is
thrown). -/
def supabaseRecordTip (tipInsertFails counterUpdateFails : Bool) : RecordTipOutcome :=
  if tipInsertFails then
    { tipWritten := false, counterWritten := false,
      thrown := some "Failed to record tip" }
  else
    { tipWritten := true, counterWritten := !counterUpdateFails, thrown := none }

/-- The row inserted by `SupabaseService.createPost` (part_006 lines 35-70).
`now` models the single `Date.now()` read into `timestamp`; the expiry is
`timestamp + 7 * 24 * 60 * 60 * 1000`. -/
def supabaseCreatePost (creator : String) (latitude longitude : ℚ) (memo : String)
    (imageType : ImageType) (now : Int) : SupabasePostRow :=
  { creator := creator
    latitude := latitude
    longitude := longitude
    geohash := encodeGeohash latitude longitude 7
    memo := memo
    image_type := imageType
    timestamp := now
    expiry := now + 7 * 24 * 60 * 60 * 1000
    tips := 0 }

/-- The `PostMetadata` built by `IrysService.createPost` (irysService.ts lines
149-210); identical in the demo and real branches. The random `id` and the
resolved `photoUrl` are parameters; `now` models `Date.now()`. -/
def irysCreatePost (id photoUrl memo : String) (latitude longitude : ℚ)
    (creator : String) (now : Int) : PostMetadata :=
  { id := id
    latitude := latitude
    longitude := longitude
    photoUrl := photoUrl
    memo := memo
    creator := creator
    timestamp := now
    expiry := now + 7 * 24 * 60 * 60 * 1000
    tips := 0
    geohash := encodeGeohash latitude longitude 7 }

/-- The record passed to `demoPostStore.addPost` by the demo branch of
`handleSubmit` (CreatePostScreen.tsx, second revision, lines 556-571). The
source passes a `photoUrl` field rather than the `image_type` declared on
`DemoPost`; the record is modelled exactly as written. The random `id` is a
parameter and the two `Date.now()` reads are modelled by one instant `now`.
The expiry is `now + 24 * 60 * 60 * 1000` (one day). -/
structure DemoCreatedPost where
  id : String
  latitude : ℚ
  longitude : ℚ
  memo : String
  timestamp : Int
  photoUrl : String
  creator : String
  expiry : Int
  tips : Int
  deriving DecidableEq

/-- The demo creation path (CreatePostScreen.tsx, second revision, lines
556-571): builds the stored record with a one-day expiry. -/
def demoCreatePost (id : String) (latitude longitude : ℚ)
    (memo photoUrl creator : String) (now : Int) : DemoCreatedPost :=
  { id := id
    latitude := latitude
    longitude := longitude
    memo := memo
    timestamp := now
    photoUrl := photoUrl
    creator := creator
    expiry := now + 24 * 60 * 60 * 1000
    tips := 0 }

/-- The demo-mode branch of `handleTip` (PostDetailScreen.tsx, third revision,
lines 1058-1135): after the wallet check, the parsed `amount` is validated
(`isNaN(amount) || amount <= 0` rejects before any write); a valid amount goes
straight to `demoPostStore.updatePostTips(post.id, amount)`. The function
never compares `tipper` with `creator`: no self-tip validation exists on this
path (nor inside `SupabaseService.recordTip` on the real path). `none` models
the early return with no write; `some` carries the updated store and the
listener-notification flag. -/
def handleTipDemo (store : List DemoPost) (postId creator tipper : String)
    (amount : Int) : Option (List DemoPost × Bool) :=
  if amount ≤ 0 then none
  else some (updatePostTips store postId amount)

/-- Insertion into a timestamp-descending list; building block for the
ordering produced by `.sort((a, b) => b.timestamp - a.timestamp)`. -/
def insertTsDesc {α : Type} (ts : α → Int) (p : α) : List α → List α
  | [] => [p]
  | q :: rest => if ts q ≤ ts p then p :: q :: rest else q :: insertTsDesc ts p rest

/-- Sorting by timestamp descending (most recent first), modelling
`.sort((a, b) => b.timestamp - a.timestamp)` in `updatePosts`. -/
def sortTsDesc {α : Type} (ts : α → Int) : List α → List α
  | [] => []
  | p :: rest => insertTsDesc ts p (sortTsDesc ts rest)

/-- The demo branch of `updatePosts` (MapScreen.tsx lines 136-145): every
user-created post from the demo store gets a `distance` field attached — the
haversine distance from the viewer, abstracted here as the function `dist` —
and is concatenated with the standard mock posts `mocks` (already
distance-annotated records whose extra fields play no role here); the
combined list is sorted by timestamp descending. The branch applies no
filtering of any kind: no expiry test, no distance cutoff, and the records
carry no status field. -/
def updatePostsDemo (dist : DemoPost → ℚ) (userPosts : List DemoPost)
    (mocks : List (DemoPost × ℚ)) : List (DemoPost × ℚ) :=
  sortTsDesc (fun pd => pd.1.timestamp)
    (userPosts.map (fun p => (p, dist p)) ++ mocks)

/-- The map/filter/sort pipeline of the real branch of `updatePosts`
(MapScreen.tsx lines 150-158): attach the haversine distance (abstracted as
`dist`) to each candidate, keep those with `(p.distance || 0) < 1000`
(`distance` is always set by the preceding map, and `0 < 1000`, so the
`|| 0` default never changes the outcome of the strict comparison), and sort
newest first. -/
def realModeFilterSort (dist : PostMetadata → ℚ) (candidates : List PostMetadata) :
    List (PostMetadata × ℚ) :=
  sortTsDesc (fun pd => pd.1.timestamp)
    ((candidates.map (fun p => (p, dist p))).filter (fun pd => decide (pd.2 < 1000)))

/-- `IrysService.queryPostsByGeohash` (irysService.ts lines 212-304) as a
function of the network outcome: any thrown error is caught by the final
catch block, which logs and returns `[]`; the function itself never throws. -/
def irysQueryPostsByGeohash (backendResult : Except String (List PostMetadata)) :
    List PostMetadata :=
  match backendResult with
  | Except.ok posts => posts
  | Except.error _ => []

/-- The posts state after the real branch of `updatePosts` completes
(MapScreen.tsx lines 146-166): `setPosts` replaces the previous state `prev`
with the freshly computed list. On a failed backend query the candidate list
is `[]` (and the catch block likewise does `setPosts([])`), so the new state
is empty; `prev` is never consulted. -/
def updatePostsReal (prev : List (PostMetadata × ℚ)) (dist : PostMetadata → ℚ)
    (backendResult : Except String (List PostMetadata)) : List (PostMetadata × ℚ) :=
  realModeFilterSort dist (irysQueryPostsByGeohash backendResult)

/-- `Math.atan2(y, x)` over the reals: the standard piecewise extension of
the arctangent to all four quadrants. -/
noncomputable def atan2 (y x : ℝ) : ℝ :=
  if 0 < x then Real.arctan (y / x)
  else if x < 0 then
    if 0 ≤ y then Real.arctan (y / x) + Real.pi else Real.arctan (y / x) - Real.pi
  else
    if 0 < y then Real.pi / 2 else if y < 0 then -(Real.pi / 2) else 0

/-- The intermediate value `a` of `haversine` (MapScreen.tsx lines 38-53):
`sin²(Δφ/2) + cos φ1 · cos φ2 · sin²(Δλ/2)` with angles converted from
degrees to radians. -/
noncomputable def haversineA (lat1 lon1 lat2 lon2 : ℝ) : ℝ :=
  Real.sin ((lat2 - lat1) * Real.pi / 180 / 2) ^ 2 +
    Real.cos (lat1 * Real.pi / 180) * Real.cos (lat2 * Real.pi / 180) *
      Real.sin ((lon2 - lon1) * Real.pi / 180 / 2) ^ 2

/-- `haversine` from MapScreen.tsx lines 38-53: great-circle distance in
meters with Earth radius `R = 6371e3`, modelled over the reals. -/
noncomputable def haversine (lat1 lon1 lat2 lon2 : ℝ) : ℝ :=
  6371000 * 2 *
    atan2 (Real.sqrt (haversineA lat1 lon1 lat2 lon2))
      (Real.sqrt (1 - haversineA lat1 lon1 lat2 lon2))

/-- Concrete demo-store post for the C1 counterexample: expired at the chosen
current time 2000 and, with the distance function chosen there, 500 m away. -/
def stalePost : DemoPost :=
  { id := "stale", latitude := 0, longitude := 0, image_type := ImageType.general,
    memo := "old", creator := "alice", timestamp := 500, expiry := 1000, tips := 0 }

/-- The current instant used alongside `stalePost`: past its expiry. -/
def demoNow : Int := 2000

/-- Concrete post for the C4 counterexample, created by "alice". -/
def selfTipPost : DemoPost :=
  { id := "p1", latitude := 0, longitude := 0, image_type := ImageType.general,
    memo := "mine", creator := "alice", timestamp := 0, expiry := 1000, tips := 0 }

/-- Concrete cached result entry for the C6 counterexample. -/
def prevPost : PostMetadata :=
  { id := "prev", latitude := 0, longitude := 0, photoUrl := "", memo := "cached",
    creator := "c", timestamp := 0, expiry := 10, tips := 0, geohash := "s0000" }

/-- Concrete candidate for the C8 counterexample, placed at exactly 1000 m. -/
def boundaryPost : PostMetadata :=
  { id := "edge", latitude := 0, longitude := 0, photoUrl := "", memo := "edge",
    creator := "c", timestamp := 0, expiry := 10, tips := 0, geohash := "s0000" }

/-! ## Helper lemmas -/

theorem mem_insertTsDesc {α : Type} (ts : α → Int) (p a : α) (l : List α) :
    a ∈ insertTsDesc ts p l ↔ a = p ∨ a ∈ l := by
  induction l with
  | nil => simp [insertTsDesc]
  | cons q rest ih =>
    simp only [insertTsDesc]
    by_cases h : ts q ≤ ts p
    · simp [h]
    · simp only [if_neg h, List.mem_cons, ih]
      tauto

theorem mem_sortTsDesc {α : Type} (ts : α → Int) (a : α) (l : List α) :
    a ∈ sortTsDesc ts l ↔ a ∈ l := by
  induction l with
  | nil => simp [sortTsDesc]
  | cons p rest ih => simp [sortTsDesc, mem_insertTsDesc, ih]

theorem geohashBitStep_fst_le (lat lon : ℚ) (st : GeohashState) (c : Nat) :
    (geohashBitStep lat lon st c).1 ≤ 2 * c + 1 := by
  unfold geohashBitStep
  split <;> dsimp only [] <;> split <;> simp <;> omega

theorem geohashBits_fst_lt (lat lon : ℚ) (n : Nat) :
    ∀ (st : GeohashState) (c : Nat), (geohashBits lat lon n st c).1 < (c + 1) * 2 ^ n := by
  induction n with
  | zero => intro st c; simp [geohashBits]
  | succ n ih =>
    intro st c
    have h1 := geohashBitStep_fst_le lat lon st c
    have h2 := ih (geohashBitStep lat lon st c).2 (geohashBitStep lat lon st c).1
    have h3 : ((geohashBitStep lat lon st c).1 + 1) * 2 ^ n ≤ (2 * c + 2) * 2 ^ n :=
      Nat.mul_le_mul_right _ (by omega)
    have h4 : (2 * c + 2) * 2 ^ n = (c + 1) * 2 ^ (n + 1) := by ring
    calc (geohashBits lat lon (n + 1) st c).1
        = (geohashBits lat lon n (geohashBitStep lat lon st c).2
            (geohashBitStep lat lon st c).1).1 := rfl
      _ < ((geohashBitStep lat lon st c).1 + 1) * 2 ^ n := h2
      _ ≤ (2 * c + 2) * 2 ^ n := h3
      _ = (c + 1) * 2 ^ (n + 1) := h4

theorem geohashBits_lt_32 (lat lon : ℚ) (st : GeohashState) :
    (geohashBits lat lon 5 st 0).1 < 32 := by
  have h := geohashBits_fst_lt lat lon 5 st 0
  simpa using h

theorem list_getD_mem {α : Type} (l : List α) (i : Nat) (d : α) (h : i < l.length) :
    l.getD i d ∈ l := by
  induction l generalizing i with
  | nil => simp at h
  | cons a t ih =>
    cases i with
    | zero => simp [List.getD]
    | succ n =>
      have hn : n < t.length := by simpa using h
      simpa [List.getD] using List.mem_cons_of_mem a (ih n hn)

theorem encodeGeohashAux_length (lat lon : ℚ) (p : Nat) :
    ∀ st : GeohashState, (encodeGeohashAux lat lon p st).length = p := by
  induction p with
  | zero => intro st; rfl
  | succ p ih => intro st; simp [encodeGeohashAux, ih]

theorem encodeGeohashAux_mem_chars (lat lon : ℚ) (p : Nat) :
    ∀ (st : GeohashState) (c : Char), c ∈ encodeGeohashAux lat lon p st →
      c ∈ geohashChars := by
  induction p with
  | zero => intro st c hc; simp [encodeGeohashAux] at hc
  | succ p ih =>
    intro st c hc
    simp only [encodeGeohashAux] at hc
    rcases List.mem_cons.mp hc with h | h
    · subst h
      apply list_getD_mem
      have h32 := geohashBits_lt_32 lat lon st
      have hlen : geohashChars.length = 32 := rfl
      omega
    · exact ih _ c h

/-! ## Claim theorems -/

/-- Claim C5: for every latitude in [-90, 90], longitude in [-180, 180] and
positive precision p, `encodeGeohash` — the alternating longitude-first
bisection emitting bit 1 with the upper half when the coordinate is at least
the midpoint, five bits per output character — returns a string of exactly p
characters, each drawn from the 32-symbol alphabet
"0123456789bcdefghjkmnpqrstuvwxyz". -/
theorem encodeGeohash_length_and_alphabet (lat lon : ℚ) (p : Nat)
    (h1 : -90 ≤ lat) (h2 : lat ≤ 90) (h3 : -180 ≤ lon) (h4 : lon ≤ 180)
    (h5 : 0 < p) :
    (encodeGeohash lat lon p).length = p ∧
      ∀ c ∈ (encodeGeohash lat lon p).toList, c ∈ geohashChars := by
  constructor
  · show (String.mk (encodeGeohashAux lat lon p geohashInit)).length = p
    simpa [String.length] using encodeGeohashAux_length lat lon p geohashInit
  · intro c hc
    apply encodeGeohashAux_mem_chars lat lon p geohashInit
    simpa [encodeGeohash, String.toList] using hc

/-- Witness for C5 at latitude 37.7749, longitude -122.4194, precision 7. -/
theorem encodeGeohash_length_and_alphabet_witness :
    (encodeGeohash (377749 / 10000) (-1224194 / 10000) 7).length = 7 ∧
      ∀ c ∈ (encodeGeohash (377749 / 10000) (-1224194 / 10000) 7).toList,
        c ∈ geohashChars :=
  encodeGeohash_length_and_alphabet (377749 / 10000) (-1224194 / 10000) 7
    (by norm_num) (by norm_num) (by norm_num) (by norm_num) (by norm_num)

/-- Claim C7 counterexample: latitude 100 and longitude 200 are both out of
range, yet `encodeGeohash` silently returns the 5-character geohash "zzzzz";
the source has no validation and no error path, contradicting the claimed
`InvalidCoordinate` failure. -/
theorem encodeGeohash_out_of_range_returns_string :
    encodeGeohash 100 200 5 = "zzzzz" := by
  simp only [encodeGeohash, encodeGeohashAux, geohashBits, geohashBitStep, geohashInit]
  norm_num
  decide

/-- Claim C7 amended: `encodeGeohash` performs no range validation at all: it
is a total pure function and for every input, in range or not, it silently
returns exactly p characters drawn from the 32-symbol alphabet; no error is
ever raised. -/
theorem encodeGeohash_total_no_validation (lat lon : ℚ) (p : Nat) :
    (encodeGeohash lat lon p).length = p ∧
      ∀ c ∈ (encodeGeohash lat lon p).toList, c ∈ geohashChars := by
  constructor
  · show (String.mk (encodeGeohashAux lat lon p geohashInit)).length = p
    simpa [String.length] using encodeGeohashAux_length lat lon p geohashInit
  · intro c hc
    apply encodeGeohashAux_mem_chars lat lon p geohashInit
    simpa [encodeGeohash, String.toList] using hc

/-- Claim C2 counterexample: when the tip-record append succeeds and the
counter-increment write fails, `SupabaseService.recordTip` resolves with no
error — the failure is only logged (`console.error`) and swallowed, never
surfaced to the caller. -/
theorem record_tip_swallows_counter_failure :
    supabaseRecordTip false true =
      { tipWritten := true, counterWritten := false, thrown := none } := rfl

/-- Claim C2 amended: `recordTip` appends the tip and increments the counter
on the happy path; if the append fails an error is raised and the counter
write is never attempted; but if the append succeeds and the counter
increment fails, the failure is only logged and the call resolves with no
error (`thrown = none`) — it is silently swallowed from the caller's
perspective. -/
theorem record_tip_behavior :
    supabaseRecordTip false false =
        { tipWritten := true, counterWritten := true, thrown := none } ∧
      (∀ uf : Bool, supabaseRecordTip true uf =
        { tipWritten := false, counterWritten := false,
          thrown := some "Failed to record tip" }) ∧
      (supabaseRecordTip false true).thrown = none ∧
      (supabaseRecordTip false true).counterWritten = false := by
  refine ⟨rfl, ?_, rfl, rfl⟩
  intro uf
  rfl

/-- Claim C3 counterexample: the demo creation path stores an expiry one day
after creation, not seven days: at `now = 0` the stored record has
`expiry = 86400000` whereas `createdAt + 7 days` would be `604800000`. -/
theorem demo_create_ttl_not_seven_days :
    (demoCreatePost "p" 0 0 "m" "u" "alice" 0).expiry ≠
      (demoCreatePost "p" 0 0 "m" "u" "alice" 0).timestamp +
        7 * 24 * 60 * 60 * 1000 := by decide

/-- Claim C3 amended: the durable creation paths (`SupabaseService.createPost`
and `IrysService.createPost`) store `expiry = createdAt + 7 days`, and tip
updates never change a stored post's `timestamp` or `expiry`; the demo
creation path (`handleSubmit`, demo branch) however stores
`expiry = createdAt + 1 day`. -/
theorem create_post_ttl (creator id photoUrl memo : String) (lat lon : ℚ)
    (imageType : ImageType) (now : Int) :
    (supabaseCreatePost creator lat lon memo imageType now).expiry =
        (supabaseCreatePost creator lat lon memo imageType now).timestamp +
          7 * 24 * 60 * 60 * 1000 ∧
      (irysCreatePost id photoUrl memo lat lon creator now).expiry =
        (irysCreatePost id photoUrl memo lat lon creator now).timestamp +
          7 * 24 * 60 * 60 * 1000 ∧
      (demoCreatePost id lat lon memo photoUrl creator now).expiry =
        (demoCreatePost id lat lon memo photoUrl creator now).timestamp +
          24 * 60 * 60 * 1000 ∧
      ∀ (store : List DemoPost) (postId : String) (amount : Int),
        (updatePostTips store postId amount).1.map (fun p => (p.timestamp, p.expiry)) =
          store.map (fun p => (p.timestamp, p.expiry)) := by
  refine ⟨rfl, rfl, rfl, ?_⟩
  intro store postId amount
  induction store with
  | nil => rfl
  | cons p rest ih =>
    by_cases h : p.id = postId
    · simp [updatePostTips, h]
    · simp [updatePostTips, h, ih]

/-- Claim C4 counterexample: a self-tip — tipper equal to the post creator
"alice", amount 10 — is not rejected: the demo tip path performs the write
and the store changes (tips go from 0 to 10). Neither `handleTip` nor
`SupabaseService.recordTip` ever compares the tipper with the creator. -/
theorem self_tip_not_rejected :
    handleTipDemo [selfTipPost] "p1" "alice" "alice" 10 =
        some ([{ selfTipPost with tips := 10 }], true) ∧
      selfTipPost.creator = "alice" ∧
      ({ selfTipPost with tips := 10 } : DemoPost) ≠ selfTipPost := by
  refine ⟨by decide, rfl, by decide⟩

/-- Claim C4 amended: the tip path re-validates the amount — `amount ≤ 0` is
rejected before any write, with no state change and no notification — but it
never re-validates against self-tipping: any positive amount proceeds to the
store write, and the result is entirely independent of who the tipper is. -/
theorem handle_tip_validation :
    (∀ (store : List DemoPost) (postId creator tipper : String) (amount : Int),
        amount ≤ 0 → handleTipDemo store postId creator tipper amount = none) ∧
      ∀ (store : List DemoPost) (postId creator tipper1 tipper2 : String)
          (amount : Int), 0 < amount →
          handleTipDemo store postId creator tipper1 amount =
              some (updatePostTips store postId amount) ∧
            handleTipDemo store postId creator tipper1 amount =
              handleTipDemo store postId creator tipper2 amount := by
  constructor
  · intro store postId creator tipper amount h
    simp [handleTipDemo, h]
  · intro store postId creator tipper1 tipper2 amount h
    constructor
    · simp [handleTipDemo, not_le.mpr h]
    · rfl

/-- Witness for C4 amended: amount 0 is rejected with no write; amount 5 is
written and the outcome does not depend on the tipper. -/
theorem handle_tip_validation_witness :
    handleTipDemo [selfTipPost] "p1" "c" "t" 0 = none ∧
      (handleTipDemo [selfTipPost] "p1" "c" "t1" 5 =
          some (updatePostTips [selfTipPost] "p1" 5) ∧
        handleTipDemo [selfTipPost] "p1" "c" "t1" 5 =
          handleTipDemo [selfTipPost] "p1" "c" "t2" 5) :=
  ⟨handle_tip_validation.1 [selfTipPost] "p1" "c" "t" 0 (by decide),
    handle_tip_validation.2 [selfTipPost] "p1" "c" "t1" "t2" 5 (by decide)⟩

/-- Claim C1 counterexample: in demo (ephemeral) mode the discovery result
contains `stalePost` even though the current time 2000 is past its expiry
1000 and its distance from the viewer is 500 m, far beyond 100 m: the demo
branch of `updatePosts` applies no filtering at all (and the records carry no
status field that could be checked). -/
theorem demo_discovery_includes_expired_far_post :
    (stalePost, (500 : ℚ)) ∈ updatePostsDemo (fun _ => 500) [stalePost] [] ∧
      stalePost.expiry < demoNow ∧ ¬ ((500 : ℚ) ≤ 100) := by
  refine ⟨?_, by decide, by norm_num⟩
  simp [updatePostsDemo, sortTsDesc, insertTsDesc]

/-- Claim C1 amended: in demo (ephemeral) mode the discovery result contains
exactly the demo-store posts — each annotated with its distance from the
viewer — together with the standard mock posts; no post is excluded for being
expired, far away, or otherwise: the pipeline only attaches distances and
orders by timestamp descending. -/
theorem demo_discovery_membership (dist : DemoPost → ℚ) (userPosts : List DemoPost)
    (mocks : List (DemoPost × ℚ)) (pd : DemoPost × ℚ) :
    pd ∈ updatePostsDemo dist userPosts mocks ↔
      (pd.1 ∈ userPosts ∧ pd.2 = dist pd.1) ∨ pd ∈ mocks := by
  unfold updatePostsDemo
  rw [mem_sortTsDesc]
  simp only [List.mem_append, List.mem_map]
  constructor
  · rintro (⟨p, hp, he⟩ | h)
    · left
      constructor
      · rw [← he]; exact hp
      · rw [← he]
    · exact Or.inr h
  · rintro (⟨h1, h2⟩ | h)
    · left
      exact ⟨pd.1, h1, by cases pd with | mk a b => simpa using h2.symm⟩
    · exact Or.inr h

/-- Claim C6 counterexample: with a nonempty previous cached result, a failed
backend query leaves the posts state EMPTY — the previous cached result is
discarded, not returned. -/
theorem real_refresh_failure_drops_cache :
    updatePostsReal [(prevPost, 0)] (fun _ => 0)
        (Except.error "Network request failed") = [] ∧
      ([(prevPost, (0 : ℚ))] : List (PostMetadata × ℚ)) ≠ [] :=
  ⟨rfl, by decide⟩

/-- Claim C6 amended: a failed durable query never throws past the discovery
boundary — the refresh always produces a result list — but that result is the
EMPTY list, not the previous cached one: the outcome of a refresh is entirely
independent of the cached state, which is overwritten. -/
theorem real_refresh_failure_behavior :
    (∀ (prev : List (PostMetadata × ℚ)) (dist : PostMetadata → ℚ) (e : String),
        updatePostsReal prev dist (Except.error e) = []) ∧
      ∀ (prev1 prev2 : List (PostMetadata × ℚ)) (dist : PostMetadata → ℚ)
          (r : Except String (List PostMetadata)),
          updatePostsReal prev1 dist r = updatePostsReal prev2 dist r := by
  constructor
  · intro prev dist e
    rfl
  · intro prev1 prev2 dist r
    rfl

/-- Claim C8 counterexample: a candidate whose distance from the viewer is
exactly 1000 m — within the claimed `distance <= 1000 m` display radius — is
excluded from the result: the source filter is the strict `< 1000`. -/
theorem real_filter_excludes_exact_1000 :
    realModeFilterSort (fun _ => 1000) [boundaryPost] = [] ∧ ((1000 : ℚ) ≤ 1000) :=
  ⟨by simp [realModeFilterSort, sortTsDesc], le_refl 1000⟩

/-- Claim C8 amended: in durable (real) mode the pipeline keeps exactly the
candidates whose distance from the viewer is strictly less than 1000 m: a
post at 999 m is included and posts at 1000 m or 1001 m are excluded. -/
theorem real_filter_membership (dist : PostMetadata → ℚ)
    (candidates : List PostMetadata) (pd : PostMetadata × ℚ) :
    pd ∈ realModeFilterSort dist candidates ↔
      pd.1 ∈ candidates ∧ pd.2 = dist pd.1 ∧ pd.2 < 1000 := by
  unfold realModeFilterSort
  rw [mem_sortTsDesc]
  simp only [List.mem_filter, List.mem_map, decide_eq_true_eq]
  constructor
  · rintro ⟨⟨p, hp, he⟩, hlt⟩
    refine ⟨?_, ?_, hlt⟩
    · rw [← he]; exact hp
    · rw [← he]
  · rintro ⟨h1, h2, h3⟩
    exact ⟨⟨pd.1, h1, by cases pd with | mk a b => simpa using h2.symm⟩, h3⟩

theorem arctan_nonneg_of_nonneg {x : ℝ} (h : 0 ≤ x) : 0 ≤ Real.arctan x := by
  have h2 : Real.arctan 0 ≤ Real.arctan x := Real.arctan_strictMono.le_iff_le.mpr h
  rwa [Real.arctan_zero] at h2

theorem atan2_nonneg {y x : ℝ} (hy : 0 ≤ y) (hx : 0 ≤ x) : 0 ≤ atan2 y x := by
  unfold atan2
  split_ifs <;>
    first
      | exact arctan_nonneg_of_nonneg (div_nonneg hy hx)
      | linarith [Real.pi_pos]

theorem atan2_zero_one : atan2 0 1 = 0 := by
  unfold atan2
  rw [if_pos one_pos]
  simp [Real.arctan_zero]

theorem haversineA_symm (lat1 lon1 lat2 lon2 : ℝ) :
    haversineA lat1 lon1 lat2 lon2 = haversineA lat2 lon2 lat1 lon1 := by
  unfold haversineA
  have h1 : (lat1 - lat2) * Real.pi / 180 / 2 = -((lat2 - lat1) * Real.pi / 180 / 2) := by
    ring
  have h2 : (lon1 - lon2) * Real.pi / 180 / 2 = -((lon2 - lon1) * Real.pi / 180 / 2) := by
    ring
  rw [h1, h2, Real.sin_neg, Real.sin_neg]
  ring

theorem haversineA_self (lat lon : ℝ) : haversineA lat lon lat lon = 0 := by
  unfold haversineA
  simp

/-- Claim C9: the haversine distance is symmetric in its two coordinates,
zero on the diagonal, and nonnegative everywhere. -/
theorem haversine_symm_zero_nonneg :
    (∀ lat1 lon1 lat2 lon2 : ℝ,
        haversine lat1 lon1 lat2 lon2 = haversine lat2 lon2 lat1 lon1) ∧
      (∀ lat lon : ℝ, haversine lat lon lat lon = 0) ∧
      ∀ lat1 lon1 lat2 lon2 : ℝ, 0 ≤ haversine lat1 lon1 lat2 lon2 := by
  refine ⟨?_, ?_, ?_⟩
  · intro lat1 lon1 lat2 lon2
    unfold haversine
    rw [haversineA_symm]
  · intro lat lon
    unfold haversine
    rw [haversineA_self]
    simp [Real.sqrt_zero, Real.sqrt_one, atan2_zero_one]
  · intro lat1 lon1 lat2 lon2
    unfold haversine
    have h := atan2_nonneg (Real.sqrt_nonneg (haversineA lat1 lon1 lat2 lon2))
      (Real.sqrt_nonneg (1 - haversineA lat1 lon1 lat2 lon2))
    have hc : (0 : ℝ) ≤ 6371000 * 2 := by norm_num
    exact mul_nonneg hc h

theorem updatePostTips_absent (store : List DemoPost) (postId : String) (amount : Int)
    (h : ∀ p ∈ store, p.id ≠ postId) :
    updatePostTips store postId amount = (store, false) := by
  induction store with
  | nil => rfl
  | cons p rest ih =>
    have hp : p.id ≠ postId := h p (List.mem_cons_self p rest)
    have ht := ih (fun q hq => h q (List.mem_cons_of_mem p hq))
    simp [updatePostTips, hp, ht]

theorem updatePostTips_found (pre : List DemoPost) (q : DemoPost)
    (suf : List DemoPost) (postId : String) (amount : Int)
    (hpre : ∀ p ∈ pre, p.id ≠ postId) (hq : q.id = postId) :
    updatePostTips (pre ++ q :: suf) postId amount =
      (pre ++ { q with tips := q.tips + amount } :: suf, true) := by
  induction pre with
  | nil => simp [updatePostTips, hq]
  | cons p rest ih =>
    have hp : p.id ≠ postId := hpre p (List.mem_cons_self p rest)
    have ht := ih (fun r hr => hpre r (List.mem_cons_of_mem p hr))
    simp [updatePostTips, hp, ht]

/-- Claim C10: `updatePostTips` is a frame-exact update. When no stored post
has the given id, the store is returned completely unchanged and no listener
is notified; when the id is present, exactly the first matching post has its
`tips` field increased by `amount` — every other post, and every other field
of the matching post, is unchanged — and the listeners are notified. -/
theorem updatePostTips_frame :
    (∀ (store : List DemoPost) (postId : String) (amount : Int),
        (∀ p ∈ store, p.id ≠ postId) →
          updatePostTips store postId amount = (store, false)) ∧
      ∀ (pre : List DemoPost) (q : DemoPost) (suf : List DemoPost)
          (postId : String) (amount : Int),
          (∀ p ∈ pre, p.id ≠ postId) → q.id = postId →
            updatePostTips (pre ++ q :: suf) postId amount =
              (pre ++ { q with tips := q.tips + amount } :: suf, true) :=
  ⟨updatePostTips_absent, updatePostTips_found⟩

/-- Witness for C10: with a one-post store, updating a missing id "b" leaves
the store unchanged with no notification; updating the present id "p1"
changes only its tips and notifies. -/
theorem updatePostTips_frame_witness :
    updatePostTips [selfTipPost] "b" 5 = ([selfTipPost], false) ∧
      updatePostTips [selfTipPost] "p1" 5 =
        ([{ selfTipPost with tips := selfTipPost.tips + 5 }], true) :=
  ⟨updatePostTips_frame.1 [selfTipPost] "b" 5 (by decide),
    updatePostTips_frame.2 [] selfTipPost [] "p1" 5 (by simp) (by decide)⟩
